import Mathlib

/-!
Verification of the VCore communication/decoding layer.

The definitions below are a shallow embedding of `app/manager.py` and the
device decoders under `app/device/`.  Python dictionaries parsed from the
wire are modelled by the `Message` structure (each field models a
`.get` access on the dict); the FIFO Response Queue is modelled by a
`List Message` whose head is the next message to be popped; `Queue.put`
appends at the back.  Time-bounded polling loops are modelled with an
explicit fuel argument counting the pops the timeout budget allows.
Python `float` arithmetic is modelled over `ℚ`.  A Python function that
can raise is modelled with the `PyResult` sum type.
-/

/-- A wire message: a parsed JSON object.  Each field models a
`.get` access on the Python dict (absent key maps to `none`). -/
structure Message where
  action : Option String := none
  status : Option String := none
  name : Option String := none
  values : Option (List Nat) := none
  devices : Option (List Nat) := none
  names : Option (List String) := none
deriving Repr, DecidableEq

/-- Result of a Python call that may raise: `ok v` is a normal return,
`raised e` an uncaught exception whose type name is `e`. -/
inductive PyResult (α : Type) where
  | ok : α → PyResult α
  | raised : String → PyResult α
deriving Repr, DecidableEq

/-- Embedding of the loop body of `I2CManager.wait_response`
(`app/manager.py`, lines 92–145).  The state is the response queue
(front = next `get`) and the `stored_responses` side list; `fuel` is the
number of pops the timeout still allows.  Each step pops the head: on an
action match the side list is flushed onto the queue with `Queue.put`
(i.e. appended at the BACK) and the match returned; otherwise the message
is appended to the side list.  On timeout (fuel exhausted, or queue
drained and no further arrival before the deadline) the side list is
likewise appended at the back and `None` is returned.  Result:
(returned response, final queue). -/
def wait_response_go (action : String) :
    Nat → List Message → List Message → Option Message × List Message
  | 0, queue, stored => (none, queue ++ stored)
  | _ + 1, [], stored => (none, stored)
  | fuel + 1, m :: rest, stored =>
      if m.action = some action then (some m, rest ++ stored)
      else wait_response_go action fuel rest (stored ++ [m])

/-- Embedding of `I2CManager.wait_response` started on queue `queue` with
an empty side list. -/
def wait_response (action : String) (fuel : Nat) (queue : List Message) :
    Option Message × List Message :=
  wait_response_go action fuel queue []

/-- Session state of `I2CManager`: the `is_paused` / `is_active` flags and
`current_device` (the installed decoder, identified by its device-type
name). -/
structure MgrState where
  is_paused : Bool
  is_active : Bool
  current_device : Option String
deriving Repr, DecidableEq

/-- Embedding of `I2CManager.send_command` (`app/manager.py`, lines
71–90), restricted to its effect on the session state: the pause/active
flags are updated AT SEND TIME from the action key of the command,
before any response can arrive.  The serial write and logging have no
effect on the session state. -/
def send_command (st : MgrState) (action : String) : MgrState :=
  let st₁ :=
    if action = "pause" then { st with is_paused := true }
    else if action = "resume" then { st with is_paused := false }
    else st
  if action = "resume" then { st₁ with is_active := true }
  else if action = "pause" then { st₁ with is_active := false }
  else st₁

/-- Keys of `DEVICE_MAP` (`app/device/__init__.py`, lines 9–11). -/
def DEVICE_MAP_keys : List String := ["uP9512"]

/-- Modelled from the spec: `DeviceConnectionManager.get_device`, referenced
by `get_device_instance` in `app/device/__init__.py` but defined nowhere
under `src/`.  Per spec §4.3 a successful select constructs the
corresponding Device Decoder; the constructed decoder is modelled by its
device-type name. -/
def DeviceConnectionManager_get_device (name : String) : Option String :=
  some name

/-- Embedding of `get_device_instance` (`app/device/__init__.py`,
lines 3–7). -/
def get_device_instance (device_type : String) : Option String :=
  if device_type = "uP9512" then DeviceConnectionManager_get_device "uP9512"
  else none

/-- Applying the `DEVICE_MAP` factory for a key. -/
def DEVICE_MAP_apply (name : String) : Option String :=
  get_device_instance name

/-- Embedding of `I2CManager.select_device` (`app/manager.py`, lines
151–173).  `resumeResp` is what the wait for the implicit resume yields
(consulted only when the session starts Paused) and `selectResp` what the
wait for the select acknowledgement yields.  Result: the list of command
actions sent over the wire, the boolean return value and the final
session state. -/
def select_device (st : MgrState) (resumeResp selectResp : Option Message) :
    List String × Bool × MgrState :=
  let (sent₀, st₀) :=
    if st.is_paused then
      let st₁ := send_command st "resume"
      let st₂ :=
        match resumeResp with
        | some r => if r.status = some "OK" then { st₁ with is_paused := false } else st₁
        | none => st₁
      (["resume"], st₂)
    else ([], st)
  let st₃ := send_command st₀ "select"
  let sent := sent₀ ++ ["select"]
  match selectResp with
  | some r =>
    if r.status = some "OK" then
      match r.name with
      | some n =>
        if n ∈ DEVICE_MAP_keys then
          (sent, true, { st₃ with current_device := DEVICE_MAP_apply n })
        else (sent, false, { st₃ with current_device := none })
      | none => (sent, false, { st₃ with current_device := none })
    else (sent, false, { st₃ with current_device := none })
  | none => (sent, false, { st₃ with current_device := none })

/-- Embedding of `I2CManager.bulk_rw` (`app/manager.py`, lines 175–201).
`running` models the `self.running` list (`[True]` while alive; the
`not self.running` guard is true only for an empty list) and `resp` what
the wait for the `bulk_rw` acknowledgement yields (`none` on correlation
timeout).  A missing response and a reply whose status is `"PAUSED"` both
give `None`. -/
def bulk_rw (running : List Bool) (resp : Option Message) : Option Message :=
  if running.isEmpty then none
  else
    match resp with
    | none => none
    | some r => if r.status = some "PAUSED" then none else some r

/-- Embedding of the base-class `I2CDevice.read_registers`
(`app/device/base.py`, lines 6–10).  `bulkResult` is what the facade call
`bulk_rw` returned.  The method ends with an unguarded subscript of the
response at the `values` key: subscripting `None` raises `TypeError`, and
a response dict without that key raises `KeyError`. -/
def base_read_registers (bulkResult : Option Message) : PyResult (List Nat) :=
  match bulkResult with
  | none => PyResult.raised "TypeError"
  | some r =>
    match r.values with
    | none => PyResult.raised "KeyError"
    | some vs => PyResult.ok vs

/-- Result dict of `IR35201.get_measurements` (`app/device/ir35201.py`). -/
structure IR35201Measurements where
  voltage : ℚ
  current : ℚ
  power : ℚ
  temperature : ℚ
deriving Repr, DecidableEq

/-- The all-zero dict returned by the IR35201 decoder on short or missing
data. -/
def ir35201_zero : IR35201Measurements :=
  { voltage := 0, current := 0, power := 0, temperature := 0 }

/-- Embedding of `IR35201.get_measurements` (`app/device/ir35201.py`,
lines 20–47).  `bulkResult` is the facade result for the single bulk read
of the four READ registers.  The try block catches only `TypeError` and
`IndexError` (so the `TypeError` from a `None` facade result becomes the
zero dict, while a `KeyError` would escape). -/
def ir35201_get_measurements (bulkResult : Option Message) :
    PyResult IR35201Measurements :=
  match base_read_registers bulkResult with
  | PyResult.raised e =>
      if e = "TypeError" ∨ e = "IndexError" then PyResult.ok ir35201_zero
      else PyResult.raised e
  | PyResult.ok reads =>
      if reads.length < 4 then PyResult.ok ir35201_zero
      else PyResult.ok
        { voltage := (reads.getD 0 0 : ℚ) * 0.0156
          current := (reads.getD 1 0 : ℚ) * 1.0
          power := (reads.getD 2 0 : ℚ) * 0.5
          temperature := (reads.getD 3 0 : ℚ) * 1.0 }

/-- Embedding of the `UP9512.read_registers` override
(`app/device/up9512.py`, lines 103–114): an empty register list gives
`None`, and ANY exception out of the base-class call (e.g. the `TypeError`
on a `None` facade result) is caught and turned into `None`. -/
def up9512_read_registers (registers : List Nat) (bulkResult : Option Message) :
    Option (List Nat) :=
  if registers.isEmpty then none
  else
    match base_read_registers bulkResult with
    | PyResult.ok vs => some vs
    | PyResult.raised _ => none

/-- Lookup with default 0 in the eight-entry phase dict used by `UP9512`
to decode the OP_PH_MON field, bits [2:0] of the protection indicator
(`app/device/up9512.py`): raw field value `b` maps to `b + 1` phases for
`b` in 0..7 and to 0 otherwise. -/
def up9512_phase_map (b : Nat) : Nat :=
  match b with
  | 0 => 1
  | 1 => 2
  | 2 => 3
  | 3 => 4
  | 4 => 5
  | 5 => 6
  | 6 => 7
  | 7 => 8
  | _ => 0

/-- Result dict of `UP9512.get_measurements` (`app/device/up9512.py`,
lines 166–223).  Protection entries added only under an enable bit are
`Option` fields (`none` when the enable bit is clear and the key is
absent). -/
structure UP9512Measurements where
  voltage : ℚ
  current : ℚ
  temperature : ℚ
  vr_shutdown : ℚ
  power : ℚ
  operating_phases : Nat
  total_ocp : Option Bool
  channel_ocl : Option Bool
  channel_ocl_status : Option (List Bool)
  ovp : Option Bool
  uvp : Option Bool
  otp : Bool
deriving Repr, DecidableEq

/-- Embedding of `UP9512.get_measurements` (`app/device/up9512.py`, lines
166–223): one bulk read of eight registers `[0x35, 0x3B, 0x2D, 0x2C, 0x2E,
0x25, 0x3D, 0x3C]`; on `None` or fewer than 8 values it returns `None`,
otherwise the scaled snapshot (V_LSB = I_LSB = 0.01, T_LSB = 0.008,
R_SHUNT = 0.003, T_SENS = 0.0127). -/
def up9512_get_measurements (bulkResult : Option Message) :
    Option UP9512Measurements :=
  match up9512_read_registers [0x35, 0x3B, 0x2D, 0x2C, 0x2E, 0x25, 0x3D, 0x3C]
      bulkResult with
  | none => none
  | some values =>
    if values.length < 8 then none
    else
      let prot_ind2 := values.getD 0 0
      let prot_ind := values.getD 1 0
      let misc1 := values.getD 7 0
      some
        { voltage := (values.getD 2 0 : ℚ) * 0.01
          current := ((values.getD 3 0 : ℚ) * 0.01) / 0.003
          temperature := ((values.getD 4 0 : ℚ) * 0.008) / 0.0127
          vr_shutdown := (values.getD 5 0 : ℚ) * 0.008
          power := (((values.getD 6 0 : ℚ) * 0.01) / 0.003) *
            ((values.getD 2 0 : ℚ) * 0.01)
          operating_phases := up9512_phase_map (prot_ind % 8)
          total_ocp := if misc1.testBit 3 then some (prot_ind.testBit 6) else none
          channel_ocl := if misc1.testBit 2 then some (prot_ind.testBit 5) else none
          channel_ocl_status :=
            if misc1.testBit 2 then
              some ((List.range 8).map (fun i => prot_ind2.testBit i))
            else none
          ovp := if misc1.testBit 1 then some (prot_ind.testBit 4) else none
          uvp := if misc1.testBit 0 then some (prot_ind.testBit 3) else none
          otp := prot_ind.testBit 7 }

/-- Result dict of `UP9512.get_protection_status`
(`app/device/up9512.py`, lines 116–150). -/
structure UP9512Protection where
  otp : Bool
  total_ocp : Bool
  channel_ocl : Bool
  ovp : Bool
  uvp : Bool
  operating_phases : Nat
  phase_ocl_status : List Bool
deriving Repr, DecidableEq

/-- Embedding of `UP9512.get_protection_status` (`app/device/up9512.py`,
lines 116–150): one bulk read of `[0x3B, 0x35]`; the operating-phase count
comes from the OP_PH_MON field, bits [2:0] of the protection indicator,
via `up9512_phase_map` — not from counting set bits. -/
def up9512_get_protection_status (bulkResult : Option Message) :
    Option UP9512Protection :=
  match up9512_read_registers [0x3B, 0x35] bulkResult with
  | none => none
  | some values =>
    if values.length ≠ 2 then none
    else
      let prot_ind := values.getD 0 0
      let prot_ind2 := values.getD 1 0
      some
        { otp := prot_ind.testBit 7
          total_ocp := prot_ind.testBit 6
          channel_ocl := prot_ind.testBit 5
          ovp := prot_ind.testBit 4
          uvp := prot_ind.testBit 3
          operating_phases := up9512_phase_map (prot_ind % 8)
          phase_ocl_status := (List.range 8).map (fun i => prot_ind2.testBit i) }

/-- Embedding of `NCP4206.get_phase_count` (`app/device/ncp4206.py`, lines
56–65): one read of the PHASE STATUS register 0xFC; the count is the
number of set bits among bits 0–5; any exception (including the
`TypeError` of a `None` facade result) yields 0. -/
def ncp4206_get_phase_count (bulkResult : Option Message) : Nat :=
  match base_read_registers bulkResult with
  | PyResult.raised _ => 0
  | PyResult.ok phase_status =>
    match phase_status with
    | [] => 0
    | v :: _ => (List.range 6).countP (fun i => v.testBit i)

/-- Device descriptor with `addr7` and `name` fields as built by
`I2CManager.get_devices` (`app/manager.py`, lines 298–305). -/
structure DeviceDescr where
  addr7 : Nat
  name : String
deriving Repr, DecidableEq

/-- Per-attempt response timeout `1.0 * attempt` of
`I2CManager.get_devices` (progressively increased). -/
def get_devices_timeout (attempt : Nat) : ℚ := 1.0 * attempt

/-- Inter-attempt delay `0.5 * attempt` of `I2CManager.get_devices`
(progressively increased). -/
def get_devices_retry_wait (attempt : Nat) : ℚ := 0.5 * attempt

/-- Whether a response passes the `get_devices` validity check: a response
is present and carries both the `devices` and the `names` keys. -/
def get_devices_response_ok (resp : Option Message) : Bool :=
  match resp with
  | some r => r.devices.isSome && r.names.isSome
  | none => false

/-- Retry loop of `I2CManager.get_devices` (`app/manager.py`, lines
282–316).  `resp attempt` is what the wait (with timeout `1.0 * attempt`)
yields on that attempt; `remaining` counts the attempts left of
`max_retries = 5`.  A response carrying both `devices` and `names` is
zipped into descriptors; otherwise the loop retries and finally returns
the empty list. -/
def get_devices_go (resp : Nat → Option Message) :
    Nat → Nat → List DeviceDescr
  | _, 0 => []
  | attempt, remaining + 1 =>
    match resp attempt with
    | some r =>
      match r.devices, r.names with
      | some ds, some ns => (ds.zip ns).map (fun p => { addr7 := p.1, name := p.2 })
      | _, _ => get_devices_go resp (attempt + 1) remaining
    | none => get_devices_go resp (attempt + 1) remaining

/-- Embedding of `I2CManager.get_devices`: attempts run from 1 to
`max_retries = 5`. -/
def get_devices (resp : Nat → Option Message) : List DeviceDescr :=
  get_devices_go resp 1 5

/-- Trace of the attempt numbers performed by the `get_devices` loop. -/
def get_devices_attempts_go (resp : Nat → Option Message) :
    Nat → Nat → List Nat
  | _, 0 => []
  | attempt, remaining + 1 =>
    match resp attempt with
    | some r =>
      match r.devices, r.names with
      | some _, some _ => [attempt]
      | _, _ => attempt :: get_devices_attempts_go resp (attempt + 1) remaining
    | none => attempt :: get_devices_attempts_go resp (attempt + 1) remaining

/-- Attempt trace of `I2CManager.get_devices`. -/
def get_devices_attempts (resp : Nat → Option Message) : List Nat :=
  get_devices_attempts_go resp 1 5

/-- The final queue plus the returned message (if any) is a permutation of
the initial queue plus the initial side list: `wait_response` never drops
a message. -/
theorem wait_response_go_perm (action : String) :
    ∀ (fuel : Nat) (queue stored : List Message),
      ((wait_response_go action fuel queue stored).1.toList ++
        (wait_response_go action fuel queue stored).2).Perm (queue ++ stored)
  | 0, queue, stored => by simp [wait_response_go]
  | _ + 1, [], stored => by simp [wait_response_go]
  | fuel + 1, m :: rest, stored => by
      by_cases h : m.action = some action
      · simp [wait_response_go, h]
      · have ih := wait_response_go_perm action fuel rest (stored ++ [m])
        simp only [wait_response_go, h, if_false, if_neg h]
        refine ih.trans ?_
        have hc : ((rest ++ stored) ++ [m]).Perm ([m] ++ (rest ++ stored)) :=
          List.perm_append_comm
        simpa using hc

/-- If the queue holds some message whose action is `b` and the fuel covers
the whole queue, the wait returns a message whose action is `b`. -/
theorem wait_response_go_finds (b : String) :
    ∀ (queue : List Message) (fuel : Nat) (stored : List Message),
      (∃ m ∈ queue, m.action = some b) → queue.length ≤ fuel →
      ∃ r, (wait_response_go b fuel queue stored).1 = some r ∧ r.action = some b
  | [], _, _, hex, _ => by simp at hex
  | m :: rest, fuel, stored, hex, hlen => by
      obtain ⟨fuel', rfl⟩ : ∃ f, fuel = f + 1 := by
        cases fuel with
        | zero => simp at hlen
        | succ f => exact ⟨f, rfl⟩
      by_cases h : m.action = some b
      · exact ⟨m, by simp [wait_response_go, h], h⟩
      · obtain ⟨w, hw, hwb⟩ := hex
        have hwrest : w ∈ rest := by
          rcases List.mem_cons.1 hw with rfl | hmem
          · exact absurd hwb h
          · exact hmem
        have hlen' : rest.length ≤ fuel' := by simpa using hlen
        have ih := wait_response_go_finds b rest fuel' (stored ++ [m]) ⟨w, hwrest, hwb⟩ hlen'
        simpa [wait_response_go, h] using ih

/-- C1: during a wait every popped message with an unrelated action is
re-pushed before the call returns (on match and on timeout alike): the
returned match (if any) together with the final queue is a permutation of
the initial queue, and every message remaining in the final queue that
carries an action is retrievable by a subsequent `wait_response` call for
that action (given fuel covering the queue). -/
theorem wait_response_no_message_lost (a : String) (fuel : Nat) (queue : List Message) :
    ((wait_response a fuel queue).1.toList ++ (wait_response a fuel queue).2).Perm queue ∧
    ∀ m ∈ (wait_response a fuel queue).2, ∀ b : String, m.action = some b →
      ∀ fuel₂ : Nat, (wait_response a fuel queue).2.length ≤ fuel₂ →
      ∃ r, (wait_response b fuel₂ ((wait_response a fuel queue).2)).1 = some r ∧
        r.action = some b := by
  constructor
  · simpa using wait_response_go_perm a fuel queue []
  · intro m hm b hb fuel₂ hlen
    exact wait_response_go_finds b _ fuel₂ [] ⟨m, hm, hb⟩ hlen

/-- Witness for C1 at a concrete input: waiting for the `t` action on a
queue holding an unrelated `x` message before the `t` message pops and
re-pushes the `x` message, and a subsequent wait for `x` retrieves it. -/
theorem wait_response_no_message_lost_witness :
    ((wait_response "t" 5 [{ action := some "x" }, { action := some "t" }]).1.toList ++
      (wait_response "t" 5 [{ action := some "x" }, { action := some "t" }]).2).Perm
      [{ action := some "x" }, { action := some "t" }] ∧
    ∃ r, (wait_response "x" 5
        ((wait_response "t" 5 [{ action := some "x" }, { action := some "t" }]).2)).1 =
        some r ∧ r.action = some "x" := by
  obtain ⟨h1, h2⟩ :=
    wait_response_no_message_lost "t" 5 [{ action := some "x" }, { action := some "t" }]
  exact ⟨h1, h2 { action := some "x" } (by decide) "x" rfl 5 (by decide)⟩

/-- If the queue is `pre ++ m :: post` with every message of `pre`
unrelated and `m` the first match, and the fuel covers `pre`, the wait
returns `m` and the final queue is `post ++ stored ++ pre`: the collected
unrelated messages go to the BACK of the queue, after the remainder. -/
theorem wait_response_go_match (a : String) :
    ∀ (pre : List Message) (m : Message) (post : List Message)
      (fuel : Nat) (stored : List Message),
      (∀ x ∈ pre, x.action ≠ some a) → m.action = some a → pre.length < fuel →
      wait_response_go a fuel (pre ++ m :: post) stored =
        (some m, post ++ (stored ++ pre))
  | [], m, post, fuel, stored, _, hm, hfuel => by
      obtain ⟨fuel', rfl⟩ : ∃ f, fuel = f + 1 := by
        cases fuel with
        | zero => simp at hfuel
        | succ f => exact ⟨f, rfl⟩
      simp [wait_response_go, hm]
  | x :: pre', m, post, fuel, stored, hpre, hm, hfuel => by
      obtain ⟨fuel', rfl⟩ : ∃ f, fuel = f + 1 := by
        cases fuel with
        | zero => simp at hfuel
        | succ f => exact ⟨f, rfl⟩
      have hx : x.action ≠ some a := hpre x (by simp)
      have hpre' : ∀ y ∈ pre', y.action ≠ some a := fun y hy => hpre y (by simp [hy])
      have hfuel' : pre'.length < fuel' := by simpa using hfuel
      have ih := wait_response_go_match a pre' m post fuel' (stored ++ [x]) hpre' hm hfuel'
      have hcond := eq_false hx
      simp only [List.cons_append, wait_response_go, hcond, if_false]
      exact ih.trans (by simp)

/-- If every message popped within the fuel budget is unrelated, the wait
times out and the final queue is the unpopped remainder followed by the
side list followed by the collected messages: the collected messages go to
the BACK on the timeout path as well. -/
theorem wait_response_go_timeout (a : String) :
    ∀ (fuel : Nat) (queue stored : List Message),
      (∀ x ∈ queue.take fuel, x.action ≠ some a) →
      wait_response_go a fuel queue stored =
        (none, queue.drop fuel ++ (stored ++ queue.take fuel))
  | 0, queue, stored, _ => by simp [wait_response_go]
  | _ + 1, [], stored, _ => by simp [wait_response_go]
  | fuel + 1, m :: rest, stored, hq => by
      have hx : m.action ≠ some a := hq m (by simp)
      have hrest : ∀ x ∈ rest.take fuel, x.action ≠ some a := by
        intro x hxr
        exact hq x (by simp [List.take_succ_cons, hxr])
      have ih := wait_response_go_timeout a fuel rest (stored ++ [m]) hrest
      have hcond := eq_false hx
      simp only [wait_response_go, hcond, if_false]
      rw [ih]
      simp

/-- C2 counterexample: the claim says the unmatched messages collected
during the wait come back at the logical FRONT of the remaining queue.  On
a queue holding an unrelated `x` message, the awaited `t` message and then
an unrelated `y` message, waiting for `t` would then leave the `x` message
before the `y` message; the code instead leaves the `y` message first —
the collected message is re-pushed at the back, behind the remaining
message. -/
theorem wait_response_requeue_front_counterexample :
    ¬ (wait_response "t" 9
        [{ action := some "x" }, { action := some "t" }, { action := some "y" }]).2 =
      [{ action := some "x" }, { action := some "y" }] := by
  decide

/-- C2 amended: when `wait_response` concludes — on a match or on a
timeout — the unmatched messages collected during the wait are re-pushed
at the BACK of the queue, after the messages still in the queue,
preserving their original relative order among themselves; a later caller
observes the remaining (newer) messages first.  On a match (first matching
message `m` after the unrelated prefix `pre`) the final queue is
`post ++ pre`; on a timeout (every message popped within the `fuel₂`
budget unrelated) it is the unpopped remainder followed by the collected
messages. -/
theorem wait_response_requeue_back (a : String) (pre : List Message)
    (m : Message) (post : List Message) (fuel : Nat)
    (queue : List Message) (fuel₂ : Nat)
    (hpre : ∀ x ∈ pre, x.action ≠ some a) (hm : m.action = some a)
    (hfuel : pre.length < fuel)
    (htimeout : ∀ x ∈ queue.take fuel₂, x.action ≠ some a) :
    wait_response a fuel (pre ++ m :: post) = (some m, post ++ pre) ∧
    wait_response a fuel₂ queue = (none, queue.drop fuel₂ ++ queue.take fuel₂) := by
  constructor
  · have h := wait_response_go_match a pre m post fuel [] hpre hm hfuel
    simpa [wait_response] using h
  · have h := wait_response_go_timeout a fuel₂ queue [] htimeout
    simpa [wait_response] using h

/-- Witness for the C2 amended theorem at concrete inputs: the match case
leaves the collected `x` message behind the remaining `y` message, and a
timeout after one pop on a two-message queue leaves the popped message
behind the unpopped one. -/
theorem wait_response_requeue_back_witness :
    wait_response "t" 9
        [{ action := some "x" }, { action := some "t" }, { action := some "y" }] =
      (some { action := some "t" }, [{ action := some "y" }, { action := some "x" }]) ∧
    wait_response "t" 1 [{ action := some "x" }, { action := some "y" }] =
      (none, [{ action := some "y" }, { action := some "x" }]) := by
  have h := wait_response_requeue_back "t" [{ action := some "x" }]
    { action := some "t" } [{ action := some "y" }] 9
    [{ action := some "x" }, { action := some "y" }] 1
    (by decide) rfl (by decide) (by decide)
  simpa using h

/-- C3 counterexample: starting Paused with the implicit resume receiving
NO acknowledgement at all, the claim says the select command is not sent
and the session remains Paused.  The code sends the select command anyway
and the session is no longer Paused (sending the resume already cleared
the flag). -/
theorem select_device_counterexample :
    ¬ ("select" ∉ (select_device ⟨true, false, none⟩ none none).1 ∧
        (select_device ⟨true, false, none⟩ none none).2.2.is_paused = true) := by
  decide

/-- C3 amended: `select_device` called while Paused sends the resume
command and waits for its acknowledgement, but then sends the select
command UNCONDITIONALLY, whether or not the resume was acknowledged OK;
moreover merely sending the resume clears the Paused flag (in
`send_command`), so after the call the session is never Paused; if the
select exchange then fails, no device is selected (`current_device` is
`None`) and `False` is returned. -/
theorem select_device_always_sends_select (st : MgrState)
    (resumeResp selectResp : Option Message) (h : st.is_paused = true) :
    (select_device st resumeResp selectResp).1 = ["resume", "select"] ∧
    (select_device st resumeResp selectResp).2.2.is_paused = false ∧
    ((select_device st resumeResp selectResp).2.1 = false →
      (select_device st resumeResp selectResp).2.2.current_device = none) := by
  cases st with
  | mk p a d =>
    cases p with
    | false => simp at h
    | true =>
      cases resumeResp with
      | none =>
        cases selectResp with
        | none => simp [select_device, send_command]
        | some r =>
          by_cases hs : r.status = some "OK"
          · cases hn : r.name with
            | none => simp [select_device, send_command, hs, hn]
            | some n =>
              by_cases hmem : n ∈ DEVICE_MAP_keys
              · simp [select_device, send_command, hs, hn, hmem]
              · simp [select_device, send_command, hs, hn, hmem]
          · simp [select_device, send_command, hs]
      | some rr =>
        by_cases hrs : rr.status = some "OK" <;>
        · cases selectResp with
          | none => simp [select_device, send_command, hrs]
          | some r =>
            by_cases hs : r.status = some "OK"
            · cases hn : r.name with
              | none => simp [select_device, send_command, hrs, hs, hn]
              | some n =>
                by_cases hmem : n ∈ DEVICE_MAP_keys
                · simp [select_device, send_command, hrs, hs, hn, hmem]
                · simp [select_device, send_command, hrs, hs, hn, hmem]
            · simp [select_device, send_command, hrs, hs]

/-- Witness for the C3 amended theorem at a concrete input. -/
theorem select_device_always_sends_select_witness :
    (select_device ⟨true, false, none⟩ none none).1 = ["resume", "select"] ∧
    (select_device ⟨true, false, none⟩ none none).2.2.is_paused = false ∧
    ((select_device ⟨true, false, none⟩ none none).2.1 = false →
      (select_device ⟨true, false, none⟩ none none).2.2.current_device = none) :=
  select_device_always_sends_select ⟨true, false, none⟩ none none rfl

/-- C4 counterexample: with the session Active, merely sending the pause
command — no acknowledgement received — already changes the session state:
`send_command` flips `is_paused` to `true` (and `is_active` to `false`) at
send time, so the state is NOT unchanged as the claim asserts. -/
theorem send_command_counterexample :
    ¬ send_command ⟨false, true, none⟩ "pause" = ⟨false, true, none⟩ := by
  decide

/-- C4 amended: the pause/active flags change AT SEND TIME, not upon
acknowledgement: `send_command` with the pause action sets
`is_paused := true, is_active := false`, with the resume action sets
`is_paused := false, is_active := true`, and leaves the state unchanged
for every other action. -/
theorem send_command_state_at_send (st : MgrState) :
    send_command st "pause" = { st with is_paused := true, is_active := false } ∧
    send_command st "resume" = { st with is_paused := false, is_active := true } ∧
    ∀ a : String, a ≠ "pause" → a ≠ "resume" → send_command st a = st := by
  refine ⟨by simp [send_command], by simp [send_command], ?_⟩
  intro a hp hr
  simp [send_command, hp, hr]

/-- Witness for the C4 amended theorem at a concrete input. -/
theorem send_command_state_at_send_witness :
    send_command ⟨false, true, none⟩ "pause" =
      { is_paused := true, is_active := false, current_device := none } ∧
    send_command ⟨false, true, none⟩ "resume" =
      { is_paused := false, is_active := true, current_device := none } ∧
    send_command ⟨false, true, none⟩ "select" = ⟨false, true, none⟩ := by
  obtain ⟨h1, h2, h3⟩ := send_command_state_at_send ⟨false, true, none⟩
  exact ⟨h1, h2, h3 "select" (by decide) (by decide)⟩

/-- C10: `select_device` returns `True` exactly when the select
acknowledgement has status `"OK"` and carries the name `"uP9512"` — the
sole key of `DEVICE_MAP` — in which case the uP9512 decoder is installed
as `current_device`; in every other case (any other name, even with status
OK; a non-OK status; no response) `current_device` is set to `None` and
`False` is returned. -/
theorem select_device_success_iff (st : MgrState)
    (resumeResp selectResp : Option Message) :
    DEVICE_MAP_keys = ["uP9512"] ∧
    ((select_device st resumeResp selectResp).2.1 = true ↔
      ∃ r, selectResp = some r ∧ r.status = some "OK" ∧ r.name = some "uP9512") ∧
    ((select_device st resumeResp selectResp).2.1 = true →
      (select_device st resumeResp selectResp).2.2.current_device = some "uP9512") ∧
    ((select_device st resumeResp selectResp).2.1 = false →
      (select_device st resumeResp selectResp).2.2.current_device = none) := by
  refine ⟨rfl, ?_⟩
  cases selectResp with
  | none => simp [select_device]
  | some r =>
    by_cases hs : r.status = some "OK"
    · cases hn : r.name with
      | none => simp [select_device, hs, hn]
      | some n =>
        by_cases hmem : n ∈ DEVICE_MAP_keys
        · have hn9512 : n = "uP9512" := by simpa [DEVICE_MAP_keys] using hmem
          subst hn9512
          simp [select_device, hs, hn, hmem, DEVICE_MAP_apply,
            get_device_instance, DeviceConnectionManager_get_device]
        · have hne : n ≠ "uP9512" := by
            intro hcontra
            exact hmem (by simp [DEVICE_MAP_keys, hcontra])
          simp [select_device, hs, hn, hmem, hne]
    · simp [select_device, hs]

/-- Witness for C10 at a concrete input: an OK select acknowledgement
naming the uP9512 device yields success and installs the decoder. -/
theorem select_device_success_iff_witness :
    (select_device ⟨false, true, none⟩ none
        (some { action := some "select", status := some "OK", name := some "uP9512" })).2.1
      = true ∧
    (select_device ⟨false, true, none⟩ none
        (some { action := some "select", status := some "OK", name := some "uP9512" })).2.2.current_device
      = some "uP9512" := by
  obtain ⟨-, hiff, hinst, -⟩ := select_device_success_iff ⟨false, true, none⟩ none
    (some { action := some "select", status := some "OK", name := some "uP9512" })
  have htrue := hiff.mpr ⟨_, rfl, rfl, rfl⟩
  exact ⟨htrue, hinst htrue⟩

/-- C5 counterexample: the claim says a PAUSED reply is surfaced as a
"no data" result DISTINGUISHABLE from a correlation timeout.  In the code
both cases return `None`: `bulk_rw` on a PAUSED reply equals `bulk_rw` on
no reply at all, so the caller cannot tell them apart. -/
theorem bulk_rw_counterexample :
    bulk_rw [true] (some { action := some "bulk_rw", status := some "PAUSED" }) =
      bulk_rw [true] none := by
  decide

/-- C5 amended: a `bulk_rw` reply with PAUSED status is surfaced to the
caller as `None` ("no data") — the SAME value a correlation timeout
produces, so the two are indistinguishable to the caller; and no
partially-populated snapshot is ever produced from it: a decoder consuming
that facade result yields its complete default (UP9512 yields `None`,
IR35201 the all-zero dict). -/
theorem bulk_rw_paused_is_none (running : List Bool) (r : Message)
    (hrun : running = [true]) (h : r.status = some "PAUSED") :
    bulk_rw running (some r) = none ∧ bulk_rw running none = none ∧
    up9512_get_measurements (bulk_rw running (some r)) = none ∧
    ir35201_get_measurements (bulk_rw running (some r)) = PyResult.ok ir35201_zero := by
  subst hrun
  have hb : bulk_rw [true] (some r) = none := by simp [bulk_rw, h]
  exact ⟨hb, rfl, by rw [hb]; decide, by rw [hb]; decide⟩

/-- Witness for the C5 amended theorem at a concrete input. -/
theorem bulk_rw_paused_is_none_witness :
    bulk_rw [true] (some { action := some "bulk_rw", status := some "PAUSED" }) = none ∧
    bulk_rw [true] none = none ∧
    up9512_get_measurements
        (bulk_rw [true] (some { action := some "bulk_rw", status := some "PAUSED" })) =
      none ∧
    ir35201_get_measurements
        (bulk_rw [true] (some { action := some "bulk_rw", status := some "PAUSED" })) =
      PyResult.ok ir35201_zero :=
  bulk_rw_paused_is_none [true]
    { action := some "bulk_rw", status := some "PAUSED" } rfl rfl

/-- C9: whenever `bulk_rw` yields no response — a correlation timeout or a
PAUSED reply, which `bulk_rw` maps to the same `None` — the base-class
`read_registers` raises (`TypeError` from subscripting `None`) instead of
returning; it returns normally exactly under the precondition that
`bulk_rw` produced a response carrying a `values` list. -/
theorem base_read_registers_raises (resp : Option Message) (r : Message)
    (hp : r.status = some "PAUSED") :
    base_read_registers (bulk_rw [true] none) = PyResult.raised "TypeError" ∧
    base_read_registers (bulk_rw [true] (some r)) = PyResult.raised "TypeError" ∧
    (resp = none → base_read_registers resp = PyResult.raised "TypeError") ∧
    (∀ m vs, resp = some m → m.values = some vs →
      base_read_registers resp = PyResult.ok vs) := by
  refine ⟨rfl, by simp [bulk_rw, hp, base_read_registers], ?_, ?_⟩
  · intro h
    subst h
    rfl
  · intro m vs hm hvs
    subst hm
    simp [base_read_registers, hvs]

/-- Witness for C9 at concrete inputs: a PAUSED reply makes the base
`read_registers` raise, and a response with values returns them. -/
theorem base_read_registers_raises_witness :
    base_read_registers (bulk_rw [true]
        (some { action := some "bulk_rw", status := some "PAUSED" })) =
      PyResult.raised "TypeError" ∧
    base_read_registers
        (some { action := some "bulk_rw", status := some "OK", values := some [1, 2] }) =
      PyResult.ok [1, 2] := by
  obtain ⟨-, h2, -, h4⟩ := base_read_registers_raises
    (some { action := some "bulk_rw", status := some "OK", values := some [1, 2] })
    { action := some "bulk_rw", status := some "PAUSED" } rfl
  exact ⟨h2, h4 _ [1, 2] rfl rfl⟩

/-- C6 counterexample: when the bulk read returns no data, the UP9512
decoder does NOT return an all-zero default snapshot — it returns `None`
(an absent value), contradicting the claim about every device decoder. -/
theorem up9512_default_snapshot_counterexample :
    up9512_get_measurements none = none := by
  decide

/-- Helper: `up9512_phase_map` on a value below 8 is that value plus one. -/
theorem up9512_phase_map_lt_eight (b : Nat) (hb : b < 8) :
    up9512_phase_map b = b + 1 := by
  interval_cases b <;> rfl

/-- C6 amended: on no data or a short result the IR35201 decoder yields
the all-zero snapshot, but the UP9512 decoder returns `None` (an absent
value) rather than a default snapshot. -/
theorem decoders_short_data_behaviour (m : Message) (vs : List Nat)
    (hm : m.values = some vs) :
    up9512_get_measurements none = none ∧
    (vs.length < 8 → up9512_get_measurements (some m) = none) ∧
    ir35201_get_measurements none = PyResult.ok ir35201_zero ∧
    (vs.length < 4 → ir35201_get_measurements (some m) = PyResult.ok ir35201_zero) := by
  refine ⟨rfl, ?_, rfl, ?_⟩
  · intro h8
    simp [up9512_get_measurements, up9512_read_registers, base_read_registers, hm, h8]
  · intro h4
    simp [ir35201_get_measurements, base_read_registers, hm, h4]

/-- Witness for the C6 amended theorem at a concrete short read. -/
theorem decoders_short_data_behaviour_witness :
    up9512_get_measurements
        (some { action := some "bulk_rw", status := some "OK", values := some [5] }) =
      none ∧
    ir35201_get_measurements
        (some { action := some "bulk_rw", status := some "OK", values := some [5] }) =
      PyResult.ok ir35201_zero := by
  obtain ⟨-, h2, -, h4⟩ := decoders_short_data_behaviour
    { action := some "bulk_rw", status := some "OK", values := some [5] } [5] rfl
  exact ⟨h2 (by decide), h4 (by decide)⟩

/-- C7 counterexample: the UP9512 decoder does not popcount its
phase-status bits.  On a raw protection-indicator byte 0b00010110 (= 22)
it reports 7 operating phases (OP_PH_MON field 0b110 maps to 7), not the
3 the set-bit count of the claim predicts. -/
theorem up9512_phase_count_counterexample :
    (up9512_get_protection_status
        (some { action := some "bulk_rw", values := some [22, 0] })).map
      UP9512Protection.operating_phases = some 7 ∧
    ¬ (up9512_get_protection_status
        (some { action := some "bulk_rw", values := some [22, 0] })).map
      UP9512Protection.operating_phases = some 3 := by
  constructor <;> decide

/-- C7 amended: only the NCP4206 decoder computes the phase count by
counting set bits (among bits 0–5 of the phase-status register), so its
raw byte 0b00010110 gives 3; the UP9512 decoder instead decodes bits
[2:0] of the protection indicator as an integer field mapped to
field + 1, so the same raw byte gives 7. -/
theorem phase_count_decoding (m : Message) (v p1 p2 : Nat)
    (hm : m.values = some [v]) :
    ncp4206_get_phase_count (some m) = (List.range 6).countP (fun i => v.testBit i) ∧
    ncp4206_get_phase_count (some { action := some "bulk_rw", values := some [22] }) = 3 ∧
    (up9512_get_protection_status
        (some { action := some "bulk_rw", values := some [p1, p2] })).map
      UP9512Protection.operating_phases = some (p1 % 8 + 1) := by
  refine ⟨?_, by decide, ?_⟩
  · simp [ncp4206_get_phase_count, base_read_registers, hm]
  · have hmap := up9512_phase_map_lt_eight (p1 % 8) (Nat.mod_lt p1 (by decide))
    simp [up9512_get_protection_status, up9512_read_registers, base_read_registers, hmap]

/-- Witness for the C7 amended theorem at concrete inputs. -/
theorem phase_count_decoding_witness :
    ncp4206_get_phase_count (some { action := some "bulk_rw", values := some [22] }) =
      (List.range 6).countP (fun i => Nat.testBit 22 i) ∧
    (up9512_get_protection_status
        (some { action := some "bulk_rw", values := some [22, 0] })).map
      UP9512Protection.operating_phases = some (22 % 8 + 1) := by
  obtain ⟨h1, -, h3⟩ := phase_count_decoding
    { action := some "bulk_rw", values := some [22] } 22 22 0 rfl
  exact ⟨h1, h3⟩

/-- Helper: a never-valid response source drives the loop through all
remaining attempts and yields the empty list. -/
theorem get_devices_go_exhausts (resp : Nat → Option Message)
    (h : ∀ n, get_devices_response_ok (resp n) = false) :
    ∀ (remaining attempt : Nat), get_devices_go resp attempt remaining = [] := by
  intro remaining
  induction remaining with
  | zero => intro attempt; rfl
  | succ k ih =>
    intro attempt
    have ha := h attempt
    cases hr : resp attempt with
    | none => simpa [get_devices_go, hr] using ih (attempt + 1)
    | some r =>
      cases hd : r.devices with
      | none => simpa [get_devices_go, hr, hd] using ih (attempt + 1)
      | some ds =>
        cases hn : r.names with
        | none => simpa [get_devices_go, hr, hd, hn] using ih (attempt + 1)
        | some ns => simp [get_devices_response_ok, hr, hd, hn] at ha

/-- Helper: the attempt trace under a never-valid source is the full
arithmetic run of `remaining` consecutive attempt numbers. -/
theorem get_devices_attempts_go_exhausts (resp : Nat → Option Message)
    (h : ∀ n, get_devices_response_ok (resp n) = false) :
    ∀ (remaining attempt : Nat),
      get_devices_attempts_go resp attempt remaining =
        (List.range remaining).map (fun i => attempt + i) := by
  intro remaining
  induction remaining with
  | zero => intro attempt; rfl
  | succ k ih =>
    intro attempt
    have ha := h attempt
    have hrange : (List.range (k + 1)).map (fun i => attempt + i) =
        attempt :: (List.range k).map (fun i => attempt + 1 + i) := by
      rw [List.range_succ_eq_map]
      simp [Function.comp, Nat.add_comm, Nat.add_assoc, Nat.add_left_comm]
    cases hr : resp attempt with
    | none =>
      rw [hrange]
      simpa [get_devices_attempts_go, hr] using ih (attempt + 1)
    | some r =>
      cases hd : r.devices with
      | none =>
        rw [hrange]
        simpa [get_devices_attempts_go, hr, hd] using ih (attempt + 1)
      | some ds =>
        cases hn : r.names with
        | none =>
          rw [hrange]
          simpa [get_devices_attempts_go, hr, hd, hn] using ih (attempt + 1)
        | some ns => simp [get_devices_response_ok, hr, hd, hn] at ha

/-- C8: against a source that never returns a valid device list,
`get_devices` performs exactly the five bounded attempts 1..5 — with
strictly increasing per-attempt timeout (1.0 times the attempt number) and
strictly increasing inter-attempt delay (0.5 times the attempt number) —
and returns the empty list.  Being a total function of its response
source, it terminates on every input and raises nothing. -/
theorem get_devices_bounded_retries (resp : Nat → Option Message)
    (h : ∀ n, get_devices_response_ok (resp n) = false) :
    get_devices resp = [] ∧
    get_devices_attempts resp = [1, 2, 3, 4, 5] ∧
    (∀ i j : Nat, i < j → get_devices_timeout i < get_devices_timeout j) ∧
    (∀ i j : Nat, i < j → get_devices_retry_wait i < get_devices_retry_wait j) := by
  refine ⟨get_devices_go_exhausts resp h 5 1, ?_, ?_, ?_⟩
  · rw [get_devices_attempts, get_devices_attempts_go_exhausts resp h 5 1]
    decide
  · intro i j hij
    have hq : (i : ℚ) < (j : ℚ) := by exact_mod_cast hij
    have h1 : (0 : ℚ) < 1.0 := by norm_num
    exact mul_lt_mul_of_pos_left hq h1
  · intro i j hij
    have hq : (i : ℚ) < (j : ℚ) := by exact_mod_cast hij
    have h05 : (0 : ℚ) < 0.5 := by norm_num
    exact mul_lt_mul_of_pos_left hq h05

/-- Witness for C8 at a concrete never-valid source (always timeout). -/
theorem get_devices_bounded_retries_witness :
    get_devices (fun _ => none) = [] ∧
    get_devices_attempts (fun _ => none) = [1, 2, 3, 4, 5] ∧
    get_devices_timeout 1 < get_devices_timeout 2 ∧
    get_devices_retry_wait 1 < get_devices_retry_wait 2 := by
  obtain ⟨h1, h2, h3, h4⟩ := get_devices_bounded_retries (fun _ => none) (fun n => rfl)
  exact ⟨h1, h2, h3 1 2 (by decide), h4 1 2 (by decide)⟩
